import Mathlib

/-!
Shallow embedding of `supabase/functions/clerk-webhooks-2/index.ts`:
a Deno edge function that receives Clerk webhook events and dispatches
insert/update operations against Supabase tables.

Modelling conventions:
* `Deno.env.get` and `req.headers.get` return `string | null`-like values,
  embedded as `Option String`; the JavaScript falsiness test `!x` on such a
  value is `falsy` below (true for both absent and empty-string values).
* `await req.json()` either yields the parsed payload or throws on malformed
  JSON; the request carries `body : Option WebhookEvent` where `none` stands
  for a body whose JSON parse throws, and the result of the handler is
  `Except Unit Response`, `Except.error ()` standing for the uncaught
  exception escaping the handler.
* The Supabase client is an external collaborator: an oracle
  `store : StoreOp → Except StoreError JsonVal` mapping each issued
  table operation to either an error (with a `message`) or the selected row.
  The result of the handler also carries the list of store operations issued,
  in order, so that claims about which operations are issued are statable.
* Timestamps arrive as integer epoch milliseconds (`number` in the source
  interface) and are rendered by `new Date(ms).toISOString()`;
  `toISOString` below embeds the ECMAScript rendering (proleptic Gregorian,
  UTC, format YYYY-MM-DDTHH:MM:SS.mmmZ) for nonnegative epoch milliseconds.
-/

namespace ClerkWebhooks

/-- A JavaScript value appearing as a field of a record passed to the store:
either `undefined` (an absent optional) or a string. -/
inductive JsVal where
  | undef
  | str (s : String)
deriving DecidableEq, Repr

/-- A JSON value, used for response bodies and rows returned by the store. -/
inductive JsonVal where
  | null
  | bool (b : Bool)
  | str (s : String)
  | obj (fields : List (String × JsonVal))
deriving Repr

/-- The `organization` substructure of the event payload
(source interface `WebhookEvent.data.organization`). -/
structure OrgData where
  id : String
  name : String
  created_at : Nat
  updated_at : Nat
deriving DecidableEq, Repr

/-- The `public_user_data` substructure of the event payload
(source interface `WebhookEvent.data.public_user_data`). -/
structure PublicUserData where
  user_id : String
  first_name : Option String := none
  last_name : Option String := none
  image_url : Option String := none
  email_address : Option String := none
deriving DecidableEq, Repr

/-- The `data` member of the event payload (source interface
`WebhookEvent.data`); fields not read by the handler are omitted.
There is no top-level `user_id` field in the source interface. -/
structure EventData where
  id : String
  first_name : Option String := none
  last_name : Option String := none
  name : Option String := none
  image_url : Option String := none
  created_at : Nat
  updated_at : Nat
  organization : Option OrgData := none
  public_user_data : Option PublicUserData := none
deriving DecidableEq, Repr

/-- The parsed webhook envelope (source interface `WebhookEvent`). -/
structure WebhookEvent where
  data : EventData
  type : String
deriving DecidableEq, Repr

/-- The environment configuration read via `Deno.env.get`. -/
structure Env where
  clerkWebhookSecret : Option String
  supabaseUrl : Option String
  supabaseServiceKey : Option String
deriving DecidableEq, Repr

/-- An inbound HTTP request as the handler observes it: the three svix
headers (`none` when absent) and the JSON body (`none` when parsing throws). -/
structure Request where
  svixId : Option String
  svixTimestamp : Option String
  svixSignature : Option String
  body : Option WebhookEvent
deriving DecidableEq, Repr

/-- A response body: either plain text (a plain `new Response` call) or a JSON
value serialized by `JSON.stringify`. -/
inductive Body where
  | text (s : String)
  | json (v : JsonVal)
deriving Repr

/-- An HTTP response: status code and body. -/
structure Response where
  status : Nat
  body : Body
deriving Repr

/-- The kind of a table operation issued through the Supabase client. -/
inductive OpKind where
  | insert
  | update
  | create
  | delete
deriving DecidableEq, Repr

/-- One store operation: the target table, the operation kind, the record
fields written, and the value given to the `.eq` filter on `id` when present. -/
structure StoreOp where
  table : String
  kind : OpKind
  record : List (String × JsVal)
  eqId : Option String
deriving DecidableEq, Repr

/-- The error object a failed store operation yields (`error.message`). -/
structure StoreError where
  message : String
deriving DecidableEq, Repr

/-- JavaScript falsiness of a `string | null | undefined` value:
true exactly for the absent value and the empty string. -/
def falsy (v : Option String) : Bool :=
  match v with
  | none => true
  | some s => s == ""

/-- Embed an optional string field into the record passed to the store:
an absent optional is passed as `undefined`. -/
def jsOpt (v : Option String) : JsVal :=
  match v with
  | none => .undef
  | some s => .str s

/-- Left-pad the decimal rendering of `n` with zeros to `width` digits. -/
def pad (width n : Nat) : String :=
  let s := toString n
  String.mk (List.replicate (width - s.length) '0') ++ s

/-- Civil date (year, month, day) of day number `z` counted from
1970-01-01 in the proleptic Gregorian calendar. -/
def civilFromDays (z : Nat) : Nat × Nat × Nat :=
  let z := z + 719468
  let era := z / 146097
  let doe := z % 146097
  let yoe := (doe - doe / 1460 + doe / 36524 - doe / 146096) / 365
  let y := yoe + era * 400
  let doy := doe - (365 * yoe + yoe / 4 - yoe / 100)
  let mp := (5 * doy + 2) / 153
  let d := doy - (153 * mp + 2) / 5 + 1
  let m := if mp < 10 then mp + 3 else mp - 9
  (if m ≤ 2 then y + 1 else y, m, d)

/-- Embedding of `new Date(ms).toISOString()` for nonnegative epoch milliseconds:
the ISO-8601 UTC rendering YYYY-MM-DDTHH:MM:SS.mmmZ. -/
def toISOString (ms : Nat) : String :=
  let milli := ms % 1000
  let totalSec := ms / 1000
  let se := totalSec % 60
  let totalMin := totalSec / 60
  let mi := totalMin % 60
  let totalHr := totalMin / 60
  let hr := totalHr % 24
  let days := totalHr / 24
  match civilFromDays days with
  | (y, mo, d) =>
    pad 4 y ++ "-" ++ pad 2 mo ++ "-" ++ pad 2 d ++ "T" ++
    pad 2 hr ++ ":" ++ pad 2 mi ++ ":" ++ pad 2 se ++ "." ++ pad 3 milli ++ "Z"

/-- The record inserted into `users` on `user.created`. -/
def userCreatedOp (d : EventData) : StoreOp :=
  { table := "users"
    kind := .insert
    record :=
      [("id", .str d.id),
       ("first_name", jsOpt d.first_name),
       ("last_name", jsOpt d.last_name),
       ("avatar_url", jsOpt d.image_url),
       ("created_at", .str (toISOString d.created_at)),
       ("updated_at", .str (toISOString d.updated_at))]
    eqId := none }

/-- The update issued against `users` on `user.updated`. -/
def userUpdatedOp (d : EventData) : StoreOp :=
  { table := "users"
    kind := .update
    record :=
      [("first_name", jsOpt d.first_name),
       ("last_name", jsOpt d.last_name),
       ("avatar_url", jsOpt d.image_url),
       ("updated_at", .str (toISOString d.updated_at))]
    eqId := some d.id }

/-- The create issued against `organizations` on `organization.created`. -/
def orgCreatedOp (d : EventData) : StoreOp :=
  { table := "organizations"
    kind := .create
    record :=
      [("id", .str d.id),
       ("name", jsOpt d.name),
       ("updated_at", .str (toISOString d.updated_at))]
    eqId := none }

/-- The update issued against `owners` on `organization.updated`. -/
def orgUpdatedOp (d : EventData) : StoreOp :=
  { table := "owners"
    kind := .update
    record :=
      [("name", jsOpt d.name),
       ("updated_at", .str (toISOString d.updated_at))]
    eqId := some d.id }

/-- The record inserted into `members` on `organizationMembership.created`;
the optional chains `public_user_data?.user_id` and `organization?.id`
fall back to `undefined`. -/
def memberCreatedOp (d : EventData) : StoreOp :=
  { table := "members"
    kind := .insert
    record :=
      [("id", .str d.id),
       ("user_id", jsOpt (d.public_user_data.map PublicUserData.user_id)),
       ("organization_id", jsOpt (d.organization.map OrgData.id)),
       ("created_at", .str (toISOString d.created_at)),
       ("updated_at", .str (toISOString d.updated_at))]
    eqId := none }

/-- The update issued against `members` on `organizationMembership.updated`. -/
def memberUpdatedOp (d : EventData) : StoreOp :=
  { table := "members"
    kind := .update
    record :=
      [("user_id", jsOpt (d.public_user_data.map PublicUserData.user_id)),
       ("organization_id", jsOpt (d.organization.map OrgData.id)),
       ("updated_at", .str (toISOString d.updated_at))]
    eqId := some d.id }

/-- Map one store result to the HTTP response: on error, 500 with the JSON
body carrying the error message under `error`; on success, 200 with the JSON
body carrying the returned row under `key` (`user` or `data`). -/
def respond (store : StoreOp → Except StoreError JsonVal) (op : StoreOp)
    (key : String) : Response :=
  match store op with
  | .error e => ⟨500, .json (.obj [("error", .str e.message)])⟩
  | .ok row => ⟨200, .json (.obj [(key, row)])⟩

/-- The `switch (event.type)` dispatch: each recognized type issues exactly
one store operation and maps its result through `respond`; any other type is
a no-op answered 200 with a JSON body mapping `success` to `true`. -/
def dispatch (store : StoreOp → Except StoreError JsonVal)
    (event : WebhookEvent) : Response × List StoreOp :=
  if event.type = "user.created" then
    (respond store (userCreatedOp event.data) "user", [userCreatedOp event.data])
  else if event.type = "user.updated" then
    (respond store (userUpdatedOp event.data) "user", [userUpdatedOp event.data])
  else if event.type = "organization.created" then
    (respond store (orgCreatedOp event.data) "data", [orgCreatedOp event.data])
  else if event.type = "organization.updated" then
    (respond store (orgUpdatedOp event.data) "data", [orgUpdatedOp event.data])
  else if event.type = "organizationMembership.created" then
    (respond store (memberCreatedOp event.data) "data", [memberCreatedOp event.data])
  else if event.type = "organizationMembership.updated" then
    (respond store (memberUpdatedOp event.data) "data", [memberUpdatedOp event.data])
  else
    (⟨200, .json (.obj [("success", .bool true)])⟩, [])

/-- The whole request handler (`Deno.serve` callback), in source order:
secret check, svix header check, body parse (which may throw), Supabase
credential check, then dispatch. The second component is the list of store
operations issued while handling the request. -/
def handler (env : Env) (store : StoreOp → Except StoreError JsonVal)
    (req : Request) : Except Unit Response × List StoreOp :=
  if falsy env.clerkWebhookSecret then
    (.ok ⟨500, .text "Webhook secret not configured"⟩, [])
  else if falsy req.svixId || falsy req.svixTimestamp || falsy req.svixSignature then
    (.ok ⟨400, .text "Error occured -- no svix headers"⟩, [])
  else
    match req.body with
    | none => (.error (), [])
    | some payload =>
      if falsy env.supabaseUrl || falsy env.supabaseServiceKey then
        (.ok ⟨500, .text "Supabase credentials not configured"⟩, [])
      else
        (Except.ok (dispatch store payload).1, (dispatch store payload).2)

/-- Look up a field of a store record by name. -/
def fieldOf (r : List (String × JsVal)) (k : String) : Option JsVal :=
  (r.find? (fun kv => kv.1 == k)).map (fun kv => kv.2)

/-- Replace an empty-string header value by the absent value; used to state
that the handler treats an empty header like an absent one. -/
def dropEmpty (v : Option String) : Option String :=
  if v = some "" then none else v

end ClerkWebhooks

namespace ClerkWebhooks

/-! ### Concrete fixtures used by witnesses and counterexamples -/

/-- An environment with all three configuration values present. -/
def envFull : Env :=
  ⟨some "whsec_test", some "http://localhost:54321", some "service_role_key"⟩

/-- A store oracle on which every operation succeeds with a sample row. -/
def storeRow : StoreOp → Except StoreError JsonVal :=
  fun _ => .ok (.obj [("id", .str "row1")])

/-- A store oracle on which every operation fails with a duplicate-key error. -/
def storeFail : StoreOp → Except StoreError JsonVal :=
  fun _ => .error ⟨"duplicate key value violates unique constraint"⟩

/-- Sample `user.created` payload data (the test vector of the spec). -/
def dUser : EventData :=
  { id := "u1", first_name := some "A", last_name := some "B",
    image_url := some "img", created_at := 0, updated_at := 0 }

/-- Sample `user.created` envelope. -/
def pUserCreated : WebhookEvent := ⟨dUser, "user.created"⟩

/-- A request carrying the sample `user.created` event with all svix headers. -/
def reqUserCreated : Request :=
  ⟨some "msg_1", some "1700000000", some "v1,abc", some pUserCreated⟩

/-- Sample membership payload data: nested `public_user_data.user_id = "u2"`
and `organization.id = "o1"` (the test vector of the spec). -/
def dMem : EventData :=
  { id := "m1", created_at := 0, updated_at := 0,
    organization := some ⟨"o1", "Org One", 0, 0⟩,
    public_user_data := some { user_id := "u2" } }

/-- Sample `organizationMembership.created` envelope. -/
def pMem : WebhookEvent := ⟨dMem, "organizationMembership.created"⟩

/-- A request carrying the sample membership event with all svix headers. -/
def reqMem : Request :=
  ⟨some "msg_2", some "1700000001", some "v1,def", some pMem⟩

/-- Sample organization payload data. -/
def dOrg : EventData :=
  { id := "org_1", name := some "Acme", created_at := 5, updated_at := 7 }

/-- Sample `organization.updated` envelope. -/
def pOrgUpdated : WebhookEvent := ⟨dOrg, "organization.updated"⟩

/-- A request carrying the sample `organization.updated` event. -/
def reqOrgUpdated : Request :=
  ⟨some "msg_3", some "1700000002", some "v1,ghi", some pOrgUpdated⟩

/-- Sample envelope with an unrecognized event type. -/
def pUnknown : WebhookEvent := ⟨dOrg, "unknown.event"⟩

/-- A request carrying the unrecognized-type event. -/
def reqUnknown : Request :=
  ⟨some "msg_4", some "1700000003", some "v1,jkl", some pUnknown⟩

/-- A request whose JSON body fails to parse, with all svix headers present. -/
def reqMalformed : Request :=
  ⟨some "msg_5", some "1700000004", some "v1,mno", none⟩

/-- A request whose svix-timestamp header is present but empty. -/
def reqEmptyHeader : Request :=
  ⟨some "msg_6", some "", some "v1,pqr", some pUserCreated⟩

/-! ### Helper lemmas -/

/-- Under present (non-falsy) configuration, present headers and a body that
parses, the handler runs the dispatch on the parsed payload. -/
theorem handler_run (env : Env) (store : StoreOp → Except StoreError JsonVal)
    (req : Request) (p : WebhookEvent)
    (hsec : falsy env.clerkWebhookSecret = false)
    (hhdr : (falsy req.svixId || falsy req.svixTimestamp || falsy req.svixSignature) = false)
    (hurl : falsy env.supabaseUrl = false)
    (hkey : falsy env.supabaseServiceKey = false)
    (hbody : req.body = some p) :
    handler env store req = (Except.ok (dispatch store p).1, (dispatch store p).2) := by
  simp [handler, hsec, hhdr, hurl, hkey, hbody]

/-- Dispatch on a `user.created` event. -/
theorem dispatch_user_created (store : StoreOp → Except StoreError JsonVal)
    (p : WebhookEvent) (h : p.type = "user.created") :
    dispatch store p = (respond store (userCreatedOp p.data) "user", [userCreatedOp p.data]) := by
  simp [dispatch, h]

/-- Dispatch on a `user.updated` event. -/
theorem dispatch_user_updated (store : StoreOp → Except StoreError JsonVal)
    (p : WebhookEvent) (h : p.type = "user.updated") :
    dispatch store p = (respond store (userUpdatedOp p.data) "user", [userUpdatedOp p.data]) := by
  simp [dispatch, h]

/-- Dispatch on an `organization.created` event. -/
theorem dispatch_org_created (store : StoreOp → Except StoreError JsonVal)
    (p : WebhookEvent) (h : p.type = "organization.created") :
    dispatch store p = (respond store (orgCreatedOp p.data) "data", [orgCreatedOp p.data]) := by
  simp [dispatch, h]

/-- Dispatch on an `organization.updated` event. -/
theorem dispatch_org_updated (store : StoreOp → Except StoreError JsonVal)
    (p : WebhookEvent) (h : p.type = "organization.updated") :
    dispatch store p = (respond store (orgUpdatedOp p.data) "data", [orgUpdatedOp p.data]) := by
  simp [dispatch, h]

/-- Dispatch on an `organizationMembership.created` event. -/
theorem dispatch_member_created (store : StoreOp → Except StoreError JsonVal)
    (p : WebhookEvent) (h : p.type = "organizationMembership.created") :
    dispatch store p = (respond store (memberCreatedOp p.data) "data", [memberCreatedOp p.data]) := by
  simp [dispatch, h]

/-- Dispatch on an `organizationMembership.updated` event. -/
theorem dispatch_member_updated (store : StoreOp → Except StoreError JsonVal)
    (p : WebhookEvent) (h : p.type = "organizationMembership.updated") :
    dispatch store p = (respond store (memberUpdatedOp p.data) "data", [memberUpdatedOp p.data]) := by
  simp [dispatch, h]

/-- Dispatch on an unrecognized event type: no-op success. -/
theorem dispatch_default (store : StoreOp → Except StoreError JsonVal)
    (p : WebhookEvent)
    (h1 : p.type ≠ "user.created") (h2 : p.type ≠ "user.updated")
    (h3 : p.type ≠ "organization.created") (h4 : p.type ≠ "organization.updated")
    (h5 : p.type ≠ "organizationMembership.created")
    (h6 : p.type ≠ "organizationMembership.updated") :
    dispatch store p = (⟨200, .json (.obj [("success", .bool true)])⟩, []) := by
  simp [dispatch, h1, h2, h3, h4, h5, h6]

/-- The function `respond` maps a store error to 500 with the error message, and a
returned row to 200 with the row wrapped under `key`. -/
theorem respond_spec (store : StoreOp → Except StoreError JsonVal)
    (op : StoreOp) (key : String) :
    (∀ e, store op = .error e →
      respond store op key = ⟨500, .json (.obj [("error", .str e.message)])⟩) ∧
    (∀ row, store op = .ok row →
      respond store op key = ⟨200, .json (.obj [(key, row)])⟩) := by
  constructor <;> intro x h <;> simp [respond, h]

/-! ### Claim theorems -/

/-- C1: For every parsed event of type `organization.updated`, the handler
issues exactly one store operation: an update against the `owners` table
writing `name` and `updated_at` and matching `id = data.id`; for type
`organization.created` it issues exactly one create against the
`organizations` table writing `id`, `name` and `updated_at` — the two
lifecycle events of the organization entity target different tables. -/
theorem org_lifecycle_tables (env : Env) (store : StoreOp → Except StoreError JsonVal)
    (req : Request) (p : WebhookEvent)
    (hsec : falsy env.clerkWebhookSecret = false)
    (hhdr : (falsy req.svixId || falsy req.svixTimestamp || falsy req.svixSignature) = false)
    (hurl : falsy env.supabaseUrl = false)
    (hkey : falsy env.supabaseServiceKey = false)
    (hbody : req.body = some p) :
    (p.type = "organization.updated" →
      (handler env store req).2 =
        [{ table := "owners", kind := .update,
           record := [("name", jsOpt p.data.name),
                      ("updated_at", .str (toISOString p.data.updated_at))],
           eqId := some p.data.id }]) ∧
    (p.type = "organization.created" →
      (handler env store req).2 =
        [{ table := "organizations", kind := .create,
           record := [("id", .str p.data.id),
                      ("name", jsOpt p.data.name),
                      ("updated_at", .str (toISOString p.data.updated_at))],
           eqId := none }]) := by
  rw [handler_run env store req p hsec hhdr hurl hkey hbody]
  constructor
  · intro h
    rw [dispatch_org_updated store p h]
    rfl
  · intro h
    rw [dispatch_org_created store p h]
    rfl

/-- C1 witness: the concrete `organization.updated` request issues exactly
the `owners` update keyed by the id of the event. -/
theorem org_lifecycle_tables_witness :
    (handler envFull storeRow reqOrgUpdated).2 =
      [{ table := "owners", kind := .update,
         record := [("name", JsVal.str "Acme"),
                    ("updated_at", JsVal.str "1970-01-01T00:00:00.007Z")],
         eqId := some "org_1" }] :=
  (org_lifecycle_tables envFull storeRow reqOrgUpdated pOrgUpdated
    rfl rfl rfl rfl rfl).1 rfl

/-- C7: When the webhook secret is unset, every request receives the same
response — status 500 with body "Webhook secret not configured" — so the
response never depends on the headers or body of the request. -/
theorem secret_unset_uniform (env : Env) (store : StoreOp → Except StoreError JsonVal)
    (h : env.clerkWebhookSecret = none) :
    (∀ req, handler env store req =
      (Except.ok ⟨500, Body.text "Webhook secret not configured"⟩, [])) ∧
    (∀ r1 r2, handler env store r1 = handler env store r2) := by
  have hf : falsy env.clerkWebhookSecret = true := by rw [h]; rfl
  refine ⟨fun req => ?_, fun r1 r2 => ?_⟩
  · simp [handler, hf]
  · simp [handler, hf]

/-- C7 witness: with the secret unset, a full request and a malformed-body
request get the identical 500 response. -/
theorem secret_unset_uniform_witness :
    handler ⟨none, some "http://localhost:54321", some "service_role_key"⟩
        storeRow reqUserCreated =
      (Except.ok ⟨500, Body.text "Webhook secret not configured"⟩, []) ∧
    handler ⟨none, some "http://localhost:54321", some "service_role_key"⟩
        storeRow reqUserCreated =
      handler ⟨none, some "http://localhost:54321", some "service_role_key"⟩
        storeRow reqMalformed :=
  ⟨(secret_unset_uniform _ storeRow rfl).1 reqUserCreated,
   (secret_unset_uniform _ storeRow rfl).2 reqUserCreated reqMalformed⟩

/-- C8: A well-formed request whose event type matches none of the six
recognized types is answered 200 with the JSON body mapping `success` to
`true`, and no store operation is issued. -/
theorem unrecognized_type_noop (env : Env) (store : StoreOp → Except StoreError JsonVal)
    (req : Request) (p : WebhookEvent)
    (hsec : falsy env.clerkWebhookSecret = false)
    (hhdr : (falsy req.svixId || falsy req.svixTimestamp || falsy req.svixSignature) = false)
    (hurl : falsy env.supabaseUrl = false)
    (hkey : falsy env.supabaseServiceKey = false)
    (hbody : req.body = some p)
    (h1 : p.type ≠ "user.created") (h2 : p.type ≠ "user.updated")
    (h3 : p.type ≠ "organization.created") (h4 : p.type ≠ "organization.updated")
    (h5 : p.type ≠ "organizationMembership.created")
    (h6 : p.type ≠ "organizationMembership.updated") :
    handler env store req =
      (Except.ok ⟨200, Body.json (.obj [("success", .bool true)])⟩, []) := by
  rw [handler_run env store req p hsec hhdr hurl hkey hbody,
      dispatch_default store p h1 h2 h3 h4 h5 h6]

/-- C8 witness: the concrete request with type "unknown.event" is answered
200 with the success body and issues no store operation. -/
theorem unrecognized_type_noop_witness :
    handler envFull storeRow reqUnknown =
      (Except.ok ⟨200, Body.json (.obj [("success", .bool true)])⟩, []) :=
  unrecognized_type_noop envFull storeRow reqUnknown pUnknown
    rfl rfl rfl rfl rfl (by decide) (by decide) (by decide) (by decide)
    (by decide) (by decide)

/-- C10: With the secret configured, a svix header whose value is the empty
string is treated the same as an absent header: the response is 400 with
body "Error occured -- no svix headers", and the result of the handler coincides
with its result on the request whose empty headers are dropped. -/
theorem empty_svix_header_as_absent (env : Env)
    (store : StoreOp → Except StoreError JsonVal) (req : Request)
    (hsec : falsy env.clerkWebhookSecret = false)
    (hempty : req.svixId = some "" ∨ req.svixTimestamp = some "" ∨
              req.svixSignature = some "") :
    handler env store req =
      (Except.ok ⟨400, Body.text "Error occured -- no svix headers"⟩, []) ∧
    handler env store req =
      handler env store
        ⟨dropEmpty req.svixId, dropEmpty req.svixTimestamp,
         dropEmpty req.svixSignature, req.body⟩ := by
  have ht : (falsy req.svixId || falsy req.svixTimestamp ||
      falsy req.svixSignature) = true := by
    rcases hempty with h | h | h <;> simp [h, falsy]
  have ht2 : (falsy (dropEmpty req.svixId) || falsy (dropEmpty req.svixTimestamp) ||
      falsy (dropEmpty req.svixSignature)) = true := by
    rcases hempty with h | h | h <;> simp [h, falsy, dropEmpty]
  constructor
  · simp [handler, hsec, ht]
  · simp [handler, hsec, ht, ht2]

/-- C10 witness: the concrete request with an empty svix-timestamp header
is rejected 400 exactly like one missing the header. -/
theorem empty_svix_header_as_absent_witness :
    handler envFull storeRow reqEmptyHeader =
      (Except.ok ⟨400, Body.text "Error occured -- no svix headers"⟩, []) :=
  (empty_svix_header_as_absent envFull storeRow reqEmptyHeader
    rfl (Or.inr (Or.inl rfl))).1

/-- C2 counterexample: with the Supabase URL absent (a configuration
triplet member missing) but the secret and headers present, a request whose
body fails to parse receives no 500 response at all — the parse exception
escapes — so the 500 for missing data-store credentials is not issued
before parsing. -/
theorem config_500_before_parse_counterexample :
    (handler ⟨some "whsec_test", none, some "service_role_key"⟩
        storeRow reqMalformed).1 = Except.error () := rfl

/-- C2 amended: if the webhook secret is absent or empty, the handler
responds 500 "Webhook secret not configured" before reading headers or body
and before the data-store credentials are consulted; but when the secret
and headers pass and a data-store credential is missing, the 500 "Supabase
credentials not configured" is issued only after the body has been parsed —
a body that fails to parse escapes as an exception instead. -/
theorem config_check_order (env : Env) (store : StoreOp → Except StoreError JsonVal)
    (req : Request) :
    (falsy env.clerkWebhookSecret = true →
      handler env store req =
        (Except.ok ⟨500, Body.text "Webhook secret not configured"⟩, [])) ∧
    (falsy env.clerkWebhookSecret = false →
      (falsy req.svixId || falsy req.svixTimestamp || falsy req.svixSignature) = false →
      (falsy env.supabaseUrl || falsy env.supabaseServiceKey) = true →
      ((req.body = none → (handler env store req).1 = Except.error ()) ∧
       (∀ p, req.body = some p →
         handler env store req =
           (Except.ok ⟨500, Body.text "Supabase credentials not configured"⟩, [])))) := by
  refine ⟨fun hf => ?_, fun hs hh hc => ⟨fun hb => ?_, fun p hb => ?_⟩⟩
  · simp [handler, hf]
  · simp [handler, hs, hh, hb]
  · simp [handler, hs, hh, hb, hc]

/-- C2 witness: a missing secret is answered 500 even on a malformed body,
and a missing Supabase URL is answered 500 on a parsed body. -/
theorem config_check_order_witness :
    handler ⟨none, some "http://localhost:54321", some "service_role_key"⟩
        storeRow reqMalformed =
      (Except.ok ⟨500, Body.text "Webhook secret not configured"⟩, []) ∧
    handler ⟨some "whsec_test", none, some "service_role_key"⟩
        storeRow reqUserCreated =
      (Except.ok ⟨500, Body.text "Supabase credentials not configured"⟩, []) :=
  ⟨(config_check_order ⟨none, some "http://localhost:54321", some "service_role_key"⟩
      storeRow reqMalformed).1 rfl,
   ((config_check_order ⟨some "whsec_test", none, some "service_role_key"⟩
      storeRow reqUserCreated).2 rfl rfl rfl).2 pUserCreated rfl⟩

/-- C3 counterexample: with full configuration and all svix headers
present, a request whose JSON body fails to parse is left without a
response by the handler — the parse exception escapes — so not every
execution path of the handler returns a response. -/
theorem one_response_counterexample :
    (handler envFull storeRow reqMalformed).1 = Except.error () := rfl

/-- C3 amended: the handler returns exactly one response on every path
except the malformed-body path: its result is the escaping parse exception
precisely when the secret check and the header check pass and the body
fails to parse; on every other path exactly one response is returned. -/
theorem one_response_except_parse (env : Env)
    (store : StoreOp → Except StoreError JsonVal) (req : Request) :
    (handler env store req).1 = Except.error () ↔
      (falsy env.clerkWebhookSecret = false ∧
       (falsy req.svixId || falsy req.svixTimestamp || falsy req.svixSignature) = false ∧
       req.body = none) := by
  by_cases hs : falsy env.clerkWebhookSecret = true
  · simp [handler, hs]
  · rw [Bool.not_eq_true] at hs
    by_cases hh : (falsy req.svixId || falsy req.svixTimestamp ||
        falsy req.svixSignature) = true
    · simp [handler, hs, hh]
    · rw [Bool.not_eq_true] at hh
      cases hb : req.body with
      | none => simp [handler, hs, hh, hb]
      | some p =>
        by_cases hc : (falsy env.supabaseUrl || falsy env.supabaseServiceKey) = true
        · simp [handler, hs, hh, hb, hc]
        · rw [Bool.not_eq_true] at hc
          simp [handler, hs, hh, hb, hc]

/-- C4: For every recognized event type, the handler issues exactly one
store operation, and the response maps the result of the store: an error to
status 500 with the JSON body carrying the message of the error under `error`,
and a returned row to status 200 with the row wrapped in the JSON body. -/
theorem recognized_single_op_response (env : Env)
    (store : StoreOp → Except StoreError JsonVal) (req : Request) (p : WebhookEvent)
    (hsec : falsy env.clerkWebhookSecret = false)
    (hhdr : (falsy req.svixId || falsy req.svixTimestamp || falsy req.svixSignature) = false)
    (hurl : falsy env.supabaseUrl = false)
    (hkey : falsy env.supabaseServiceKey = false)
    (hbody : req.body = some p)
    (htype : p.type = "user.created" ∨ p.type = "user.updated" ∨
             p.type = "organization.created" ∨ p.type = "organization.updated" ∨
             p.type = "organizationMembership.created" ∨
             p.type = "organizationMembership.updated") :
    ∃ op key r, (handler env store req).1 = Except.ok r ∧
      (handler env store req).2 = [op] ∧
      (∀ e, store op = Except.error e →
        r = ⟨500, Body.json (.obj [("error", .str e.message)])⟩) ∧
      (∀ row, store op = Except.ok row →
        r = ⟨200, Body.json (.obj [(key, row)])⟩) := by
  rw [handler_run env store req p hsec hhdr hurl hkey hbody]
  rcases htype with h | h | h | h | h | h
  · rw [dispatch_user_created store p h]
    exact ⟨userCreatedOp p.data, "user", respond store (userCreatedOp p.data) "user",
      rfl, rfl, (respond_spec store (userCreatedOp p.data) "user").1,
      (respond_spec store (userCreatedOp p.data) "user").2⟩
  · rw [dispatch_user_updated store p h]
    exact ⟨userUpdatedOp p.data, "user", respond store (userUpdatedOp p.data) "user",
      rfl, rfl, (respond_spec store (userUpdatedOp p.data) "user").1,
      (respond_spec store (userUpdatedOp p.data) "user").2⟩
  · rw [dispatch_org_created store p h]
    exact ⟨orgCreatedOp p.data, "data", respond store (orgCreatedOp p.data) "data",
      rfl, rfl, (respond_spec store (orgCreatedOp p.data) "data").1,
      (respond_spec store (orgCreatedOp p.data) "data").2⟩
  · rw [dispatch_org_updated store p h]
    exact ⟨orgUpdatedOp p.data, "data", respond store (orgUpdatedOp p.data) "data",
      rfl, rfl, (respond_spec store (orgUpdatedOp p.data) "data").1,
      (respond_spec store (orgUpdatedOp p.data) "data").2⟩
  · rw [dispatch_member_created store p h]
    exact ⟨memberCreatedOp p.data, "data", respond store (memberCreatedOp p.data) "data",
      rfl, rfl, (respond_spec store (memberCreatedOp p.data) "data").1,
      (respond_spec store (memberCreatedOp p.data) "data").2⟩
  · rw [dispatch_member_updated store p h]
    exact ⟨memberUpdatedOp p.data, "data", respond store (memberUpdatedOp p.data) "data",
      rfl, rfl, (respond_spec store (memberUpdatedOp p.data) "data").1,
      (respond_spec store (memberUpdatedOp p.data) "data").2⟩

/-- C4 witness: the concrete `user.created` request against the failing
store issues one operation whose error is mapped to the 500 error body. -/
theorem recognized_single_op_response_witness :
    ∃ op key r, (handler envFull storeFail reqUserCreated).1 = Except.ok r ∧
      (handler envFull storeFail reqUserCreated).2 = [op] ∧
      (∀ e, storeFail op = Except.error e →
        r = ⟨500, Body.json (.obj [("error", .str e.message)])⟩) ∧
      (∀ row, storeFail op = Except.ok row →
        r = ⟨200, Body.json (.obj [(key, row)])⟩) :=
  recognized_single_op_response envFull storeFail reqUserCreated pUserCreated
    rfl rfl rfl rfl rfl (Or.inl rfl)

/-- Every operation in a dispatch trace writes `updated_at` as the
`toISOString` rendering of the incoming `data.updated_at`; whenever it
writes `created_at` at all, the value is the `toISOString` rendering of the
incoming `data.created_at`; and the `user.created` branch always writes
`created_at`. -/
theorem dispatch_ops_timestamps (store : StoreOp → Except StoreError JsonVal)
    (p : WebhookEvent) (op : StoreOp) (hmem : op ∈ (dispatch store p).2) :
    fieldOf op.record "updated_at" = some (.str (toISOString p.data.updated_at)) ∧
    (∀ v, fieldOf op.record "created_at" = some v →
      v = .str (toISOString p.data.created_at)) ∧
    (p.type = "user.created" →
      fieldOf op.record "created_at" = some (.str (toISOString p.data.created_at))) := by
  unfold dispatch at hmem
  split_ifs at hmem with h1 h2 h3 h4 h5 h6
  · replace hmem : op = userCreatedOp p.data := by simpa using hmem
    subst hmem
    exact ⟨rfl, fun v hv => (Option.some_inj.mp hv).symm, fun _ => rfl⟩
  · replace hmem : op = userUpdatedOp p.data := by simpa using hmem
    subst hmem
    exact ⟨rfl, fun v hv => Option.noConfusion hv, fun h => absurd h h1⟩
  · replace hmem : op = orgCreatedOp p.data := by simpa using hmem
    subst hmem
    exact ⟨rfl, fun v hv => Option.noConfusion hv, fun h => absurd h h1⟩
  · replace hmem : op = orgUpdatedOp p.data := by simpa using hmem
    subst hmem
    exact ⟨rfl, fun v hv => Option.noConfusion hv, fun h => absurd h h1⟩
  · replace hmem : op = memberCreatedOp p.data := by simpa using hmem
    subst hmem
    exact ⟨rfl, fun v hv => (Option.some_inj.mp hv).symm, fun h => absurd h h1⟩
  · replace hmem : op = memberUpdatedOp p.data := by simpa using hmem
    subst hmem
    exact ⟨rfl, fun v hv => Option.noConfusion hv, fun h => absurd h h1⟩
  · simp at hmem

/-- C5: Every store operation the handler issues, on every branch, writes
`updated_at` as the `toISOString` (epoch milliseconds to ISO-8601 UTC)
rendering of the incoming `data.updated_at`, and any `created_at` it writes
is the `toISOString` rendering of the incoming `data.created_at`; in
particular, for a `user.created` event the insert writes `created_at`, and
when both incoming timestamps are 0 it carries created_at
"1970-01-01T00:00:00.000Z" and an equal updated_at. -/
theorem timestamps_written_iso (env : Env)
    (store : StoreOp → Except StoreError JsonVal) (req : Request) (op : StoreOp)
    (hmem : op ∈ (handler env store req).2) :
    ∃ p, req.body = some p ∧
      fieldOf op.record "updated_at" = some (.str (toISOString p.data.updated_at)) ∧
      (∀ v, fieldOf op.record "created_at" = some v →
        v = .str (toISOString p.data.created_at)) ∧
      (p.type = "user.created" →
        fieldOf op.record "created_at" = some (.str (toISOString p.data.created_at)) ∧
        (p.data.created_at = 0 ∧ p.data.updated_at = 0 →
          fieldOf op.record "created_at" = some (.str "1970-01-01T00:00:00.000Z") ∧
          fieldOf op.record "updated_at" = fieldOf op.record "created_at")) := by
  by_cases hs : falsy env.clerkWebhookSecret = true
  · simp [handler, hs] at hmem
  · by_cases hh : (falsy req.svixId || falsy req.svixTimestamp ||
        falsy req.svixSignature) = true
    · simp [handler, hs, hh] at hmem
    · cases hb : req.body with
      | none => simp [handler, hs, hh, hb] at hmem
      | some p =>
        by_cases hc : (falsy env.supabaseUrl || falsy env.supabaseServiceKey) = true
        · simp [handler, hs, hh, hb, hc] at hmem
        · have hmem2 : op ∈ (dispatch store p).2 := by
            simpa [handler, hs, hh, hb, hc] using hmem
          obtain ⟨hA, hB, hC⟩ := dispatch_ops_timestamps store p op hmem2
          refine ⟨p, rfl, hA, hB, fun htype => ?_⟩
          have hca := hC htype
          refine ⟨hca, ?_⟩
          rintro ⟨h0c, h0u⟩
          have e1 : toISOString p.data.created_at = "1970-01-01T00:00:00.000Z" := by
            rw [h0c]; decide
          have e2 : toISOString p.data.updated_at = "1970-01-01T00:00:00.000Z" := by
            rw [h0u]; decide
          constructor
          · rw [hca, e1]
          · rw [hA, hca, e1, e2]

/-- C5 witness: the `user.created` test vector of the spec with both
timestamps 0 issues the users insert, whose created_at is
"1970-01-01T00:00:00.000Z" with an equal updated_at. -/
theorem timestamps_written_iso_witness :
    ∃ p, reqUserCreated.body = some p ∧
      fieldOf (userCreatedOp dUser).record "updated_at" =
        some (JsVal.str (toISOString p.data.updated_at)) ∧
      (∀ v, fieldOf (userCreatedOp dUser).record "created_at" = some v →
        v = JsVal.str (toISOString p.data.created_at)) ∧
      (p.type = "user.created" →
        fieldOf (userCreatedOp dUser).record "created_at" =
          some (JsVal.str (toISOString p.data.created_at)) ∧
        (p.data.created_at = 0 ∧ p.data.updated_at = 0 →
          fieldOf (userCreatedOp dUser).record "created_at" =
            some (JsVal.str "1970-01-01T00:00:00.000Z") ∧
          fieldOf (userCreatedOp dUser).record "updated_at" =
            fieldOf (userCreatedOp dUser).record "created_at")) :=
  timestamps_written_iso envFull storeRow reqUserCreated (userCreatedOp dUser)
    (by decide)

/-- C6: For every `organizationMembership.created` event, the single insert
into `members` draws `user_id` from the nested `public_user_data.user_id`
and `organization_id` from the nested `organization.id` (the payload has no
top-level `user_id` field), an absent substructure falling back to the
explicit `undefined` value rather than failing, and the handler still
returns a response. -/
theorem membership_created_nested_ids (env : Env)
    (store : StoreOp → Except StoreError JsonVal) (req : Request) (p : WebhookEvent)
    (hsec : falsy env.clerkWebhookSecret = false)
    (hhdr : (falsy req.svixId || falsy req.svixTimestamp || falsy req.svixSignature) = false)
    (hurl : falsy env.supabaseUrl = false)
    (hkey : falsy env.supabaseServiceKey = false)
    (hbody : req.body = some p)
    (htype : p.type = "organizationMembership.created") :
    ∃ op, (handler env store req).2 = [op] ∧
      op.table = "members" ∧ op.kind = OpKind.insert ∧
      fieldOf op.record "user_id" =
        some (jsOpt (p.data.public_user_data.map PublicUserData.user_id)) ∧
      fieldOf op.record "organization_id" =
        some (jsOpt (p.data.organization.map OrgData.id)) ∧
      ∃ r, (handler env store req).1 = Except.ok r := by
  rw [handler_run env store req p hsec hhdr hurl hkey hbody,
      dispatch_member_created store p htype]
  exact ⟨memberCreatedOp p.data, rfl, rfl, rfl, rfl, rfl,
    respond store (memberCreatedOp p.data) "data", rfl⟩

/-- C6 witness: the membership test vector of the spec with nested
`public_user_data.user_id = "u2"` and `organization.id = "o1"` yields an
insert into `members` with user_id "u2" and organization_id "o1". -/
theorem membership_created_nested_ids_witness :
    ∃ op, (handler envFull storeRow reqMem).2 = [op] ∧
      op.table = "members" ∧ op.kind = OpKind.insert ∧
      fieldOf op.record "user_id" = some (JsVal.str "u2") ∧
      fieldOf op.record "organization_id" = some (JsVal.str "o1") ∧
      ∃ r, (handler envFull storeRow reqMem).1 = Except.ok r :=
  membership_created_nested_ids envFull storeRow reqMem pMem
    rfl rfl rfl rfl rfl rfl

/-- Every operation in a dispatch trace is keyed by the `data.id` of the event
(via the update filter or the `id` field of the inserted record) and is not a
delete. -/
theorem dispatch_ops_keyed (store : StoreOp → Except StoreError JsonVal)
    (p : WebhookEvent) (op : StoreOp) (hmem : op ∈ (dispatch store p).2) :
    op.kind ≠ OpKind.delete ∧
    (op.eqId = some p.data.id ∨ fieldOf op.record "id" = some (JsVal.str p.data.id)) := by
  unfold dispatch at hmem
  split_ifs at hmem with h1 h2 h3 h4 h5 h6
  · replace hmem : op = userCreatedOp p.data := by simpa using hmem
    subst hmem
    exact ⟨by simp [userCreatedOp], Or.inr rfl⟩
  · replace hmem : op = userUpdatedOp p.data := by simpa using hmem
    subst hmem
    exact ⟨by simp [userUpdatedOp], Or.inl rfl⟩
  · replace hmem : op = orgCreatedOp p.data := by simpa using hmem
    subst hmem
    exact ⟨by simp [orgCreatedOp], Or.inr rfl⟩
  · replace hmem : op = orgUpdatedOp p.data := by simpa using hmem
    subst hmem
    exact ⟨by simp [orgUpdatedOp], Or.inl rfl⟩
  · replace hmem : op = memberCreatedOp p.data := by simpa using hmem
    subst hmem
    exact ⟨by simp [memberCreatedOp], Or.inr rfl⟩
  · replace hmem : op = memberUpdatedOp p.data := by simpa using hmem
    subst hmem
    exact ⟨by simp [memberUpdatedOp], Or.inl rfl⟩
  · simp at hmem

/-- C9: Every store operation the handler issues is keyed by the identifier
taken verbatim from the `data.id` of the parsed event — via the `.eq` filter on `id`
filter for updates or the `id` field of the inserted record — and no event
type ever issues a delete operation. -/
theorem mutations_keyed_no_delete (env : Env)
    (store : StoreOp → Except StoreError JsonVal) (req : Request) (op : StoreOp)
    (hmem : op ∈ (handler env store req).2) :
    op.kind ≠ OpKind.delete ∧
    ∃ p, req.body = some p ∧
      (op.eqId = some p.data.id ∨ fieldOf op.record "id" = some (JsVal.str p.data.id)) := by
  by_cases hs : falsy env.clerkWebhookSecret = true
  · simp [handler, hs] at hmem
  · by_cases hh : (falsy req.svixId || falsy req.svixTimestamp ||
        falsy req.svixSignature) = true
    · simp [handler, hs, hh] at hmem
    · cases hb : req.body with
      | none => simp [handler, hs, hh, hb] at hmem
      | some p =>
        by_cases hc : (falsy env.supabaseUrl || falsy env.supabaseServiceKey) = true
        · simp [handler, hs, hh, hb, hc] at hmem
        · have hmem2 : op ∈ (dispatch store p).2 := by
            simpa [handler, hs, hh, hb, hc] using hmem
          have h := dispatch_ops_keyed store p op hmem2
          exact ⟨h.1, p, rfl, h.2⟩

/-- C9 witness: the concrete membership request issues the `members` insert
keyed by the own id of the event, which is not a delete. -/
theorem mutations_keyed_no_delete_witness :
    (memberCreatedOp dMem).kind ≠ OpKind.delete ∧
    ∃ p, reqMem.body = some p ∧
      ((memberCreatedOp dMem).eqId = some p.data.id ∨
       fieldOf (memberCreatedOp dMem).record "id" = some (JsVal.str p.data.id)) :=
  mutations_keyed_no_delete envFull storeRow reqMem (memberCreatedOp dMem) (by decide)

end ClerkWebhooks
